import Mathlib

/-!
Formal model of `ccDownloader.py` (Card Conjurer Selenium downloader, v7.1).

The Python program drives a browser through Selenium.  In this development the
external world (DOM queries, canvas snapshots, HTTP calls, clicks) is supplied
as explicit input data, and every piece of program logic that consumes those
inputs is transcribed as a Lean function:

* the canvas convergence loop `wait_for_canvas_change_and_stabilization`
  (source lines 449-497) becomes a recursion over the list of fingerprint
  samples the loop would observe before its timeout; a `none` sample models a
  transient canvas error (which the source skips without touching counters),
  and exhausting the list models the timeout;
* fingerprints (md5 hex digests in the source) are an arbitrary type with
  decidable equality, since the source only ever compares them for equality;
* `capture_card_image_data_from_canvas` (lines 499-519), the per-item loop of
  `process_and_output_all_cards` (lines 697-754), `_navigate_to_creator_tab`
  (lines 192-204), `_generate_filename` (lines 521-585) and
  `_write_failed_cards_file` (lines 794-826) are transcribed below, each with
  the external outcomes (element clicks, upload results, final `toDataURL`
  payloads) given by an environment record.

String/character functions mirror Python on the ASCII fragment: Python's
regex classes `\w`/`\s`, `str.lower` and `str.isalnum` are additionally
Unicode-aware; all concrete inputs used here are ASCII.
-/

namespace CCDownloader

set_option linter.unusedSectionVars false

variable {α : Type} [DecidableEq α]

/-- Number of consecutive identical samples required by the stabilization
loop: `self.delays['canvas_stability_checks']` (source line 127). -/
def canvas_stability_checks : Nat := 3

/-- Body of the polling loop of `wait_for_canvas_change_and_stabilization`
for a `None` baseline (`initial_data_url_hash is None`, so
`changed_from_initial` starts `True`).  Arguments after the sample list:
`last_hash`, `stable_count`, `first_valid_hash_obtained_this_call`.
A `none` sample is a canvas error / null data URL: the source sleeps and
continues (lines 464-466).  On the first valid sample the source sets
`last_hash := current_hash` and `stable_count := 1` (lines 468-472), then
falls through to the stability block (lines 484-495), where
`current_hash == last_hash` compares the sample with itself. -/
def waitGoNone (K : Nat) : List (Option α) → Option α → Nat → Bool → Option α
  | [], _, _, _ => none
  | none :: rest, last, stable, fv => waitGoNone K rest last stable fv
  | some h :: rest, last, stable, fv =>
    let last1 : Option α := if fv then last else some h
    let stable1 : Nat := if fv then stable else 1
    let stable2 : Nat := if some h = last1 then stable1 + 1 else 1
    if K ≤ stable2 then some h
    else waitGoNone K rest (some h) stable2 true

/-- Body of the polling loop of `wait_for_canvas_change_and_stabilization`
for a non-null baseline `b`.  Arguments after the sample list: `last_hash`,
`changed_from_initial`, `stable_count`, `first_valid_hash_obtained_this_call`.
In the escape branch (lines 479-481) the source sets
`changed_from_initial := True; last_hash := current_hash; stable_count := 1`
and then the stability block of the same iteration (lines 484-495) compares
`current_hash` with the `last_hash` it just assigned — a self-comparison —
so the run counter lands on `1 + 1 = 2` from a single post-escape sample.
The success test (lines 491-495) returns `current_hash` only when it differs
from the baseline; when it equals the baseline the source logs a warning and
keeps polling. -/
def waitGoSome (b : α) (K : Nat) :
    List (Option α) → Option α → Bool → Nat → Bool → Option α
  | [], _, _, _, _ => none
  | none :: rest, last, changed, stable, fv =>
    waitGoSome b K rest last changed stable fv
  | some h :: rest, last, changed, stable, fv =>
    let last1 : Option α := if fv then last else some h
    if changed then
      let stable2 : Nat := if some h = last1 then stable + 1 else 1
      if K ≤ stable2 ∧ ¬ h = b then some h
      else waitGoSome b K rest (some h) true stable2 true
    else if h = b then
      waitGoSome b K rest last1 false 0 true
    else
      let stable2 : Nat := if (some h : Option α) = some h then 1 + 1 else 1
      if K ≤ stable2 ∧ ¬ h = b then some h
      else waitGoSome b K rest (some h) true stable2 true

/-- Model of `wait_for_canvas_change_and_stabilization` (source lines
449-497).  `initial` is `initial_data_url_hash`; `samples` is the sequence of
canvas observations the loop makes before the timeout would fire (`none` =
transient canvas error); the result is the returned stabilized hash, or
`none` for the timeout return at line 497.  Initial state per lines 457-459:
`last_hash := initial`, `stable_count := 0`,
`changed_from_initial := initial.isNone`, no valid hash obtained yet. -/
def wait_for_canvas_change_and_stabilization (initial : Option α)
    (samples : List (Option α)) (K : Nat) :
    Option α :=
  match initial with
  | none => waitGoNone K samples none 0 false
  | some b => waitGoSome b K samples (some b) false 0 false

/-- Model of `capture_card_image_data_from_canvas` (source lines 499-519).
`finalShot` is the outcome of the final `toDataURL` JavaScript call: `none`
when the data URL is missing/bad or the call raises (the source then returns
`None` for the bytes), `some bs` for a successful base64 decode to `bs`.
When the stabilization wait fails the source returns
`(None, previous_canvas_hash)` (line 505); otherwise it returns the bytes
together with the new stabilized hash (lines 517-519).  The warning for a
hash equal to the previous one (lines 506-507) does not alter the result. -/
def capture_card_image_data_from_canvas (previous_canvas_hash : Option α)
    (samples : List (Option α)) (K : Nat) (finalShot : Option (List Nat)) :
    Option (List Nat) × Option α :=
  match wait_for_canvas_change_and_stabilization previous_canvas_hash samples K with
  | none => (none, previous_canvas_hash)
  | some h => (finalShot, some h)

/-- Result of one call to `_navigate_to_creator_tab` (source lines 192-204).
`ok` is the returned Bool; `tab` the value of `self._current_active_tab`
afterwards; `navs` what remains of the per-item stream of external click
outcomes (each entry is the combined outcome of `wait_for_clickable` and
`click_element_safely` for one attempt, consumed only when a switch is
actually attempted); `slept` records whether the settle delay
`time.sleep(self.delays['tab_switch'] + 0.3)` at line 202 ran. -/
structure NavResult where
  ok : Bool
  tab : Option String
  navs : List Bool
  slept : Bool
deriving DecidableEq

/-- Model of `_navigate_to_creator_tab` (source lines 192-204).  If the
tracked tab already equals the target the source returns `True` immediately
(lines 193-195) without touching the page; otherwise it looks the tab button
up and clicks it: on success it stores the target as the current tab and
sleeps the settle delay (lines 199-203); on failure it sets
`self._current_active_tab = None` and returns `False` (line 204).  An empty
outcome stream plays the role of "button not found". -/
def navigate_to_creator_tab (current_active_tab : Option String)
    (navs : List Bool) (target_tab_name : String) : NavResult :=
  if current_active_tab = some target_tab_name then
    ⟨true, current_active_tab, navs, false⟩
  else
    match navs with
    | [] => ⟨false, none, [], false⟩
    | b :: rest =>
      if b then ⟨true, some target_tab_name, rest, true⟩
      else ⟨false, none, rest, false⟩

/-- Entry of `f_cards_info` in `process_and_output_all_cards`: failure paths
append a string `"<name>(<reason>)"`, the local-mode success path appends a
dict `{'name': filename, 'bytes': img_bytes}` (source lines 704-753). -/
inductive FEntry where
  | fail (msg : String)
  | saved (filename : String) (bytes : List Nat)
deriving DecidableEq

/-- Discriminates the failure-string entries of `f_cards_info` from the
local-mode success dicts (the source does this with `isinstance(c, str)`,
lines 758-759). -/
def FEntry.isFail : FEntry → Bool
  | .fail _ => true
  | .saved _ _ => false

/-- Mutable state of the main loop of `process_and_output_all_cards`:
`s_cards`, `f_cards_info`, `self.failed_card_keys`, `current_canvas_hash`,
and `self._current_active_tab`. -/
structure LoopState (α : Type) where
  sCards : Nat
  fInfo : List FEntry
  failedKeys : List String
  currentHash : Option α
  tab : Option String
deriving DecidableEq

/-- Parsed `data` block of one card, as consumed by `_generate_filename`
(source lines 540-549): the nested lookup
`card_data['text']['title']['text']` collapsed to an optional title (any
missing key or non-dict level yields the default), plus the optional
`infoSet` and `infoNumber` fields. -/
structure CardData where
  title_text : Option String
  infoSet : Option String
  infoNumber : Option String
deriving DecidableEq

/-- Run configuration of `CardConjurerDownloader` as far as the main loop
reads it: the server-upload flags, the optional-feature switches, the
`canvas_stability_checks` delay entry, and `self.parsed_card_data_map`. -/
structure Config where
  upload_to_server : Bool
  overwrite_server_file : Bool
  set_symbol_override_code : Option String
  auto_fit_set_symbol_enabled : Bool
  auto_fit_art_enabled : Bool
  stability_checks : Nat
  parsed_card_data_map : String → Option CardData

/-- External outcomes consumed while processing one card: the stream of tab
click outcomes, the `load_card` result, the canvas samples seen by the
stabilization wait, the final `toDataURL` payload, the server existence
check, and the upload result. -/
structure ItemEnv (α : Type) where
  navs : List Bool
  loadOk : Bool
  samples : List (Option α)
  finalShot : Option (List Nat)
  existsOnServer : Bool
  uploadOk : Bool

/-- Failure bookkeeping shared by every `continue` path of the loop that
marks a card failed: append `f"{name}(<reason>)"` to `f_cards_info` and the
card key to `self.failed_card_keys`; `tab` is the tab state at that point. -/
def recordFail (st : LoopState α) (tab : Option String) (name sfx : String) :
    LoopState α :=
  { st with tab := tab,
            fInfo := st.fInfo ++ [FEntry.fail (name ++ sfx)],
            failedKeys := st.failedKeys ++ [name] }

/-- Tab traffic of the optional-feature block (source lines 714-716).
`apply_set_symbol_override` first fetches the live rarity (navigating to
`bottomInfo`, lines 389-400) and then navigates to `setSymbol`;
`apply_auto_fit_set_symbol` navigates to `setSymbol`; `apply_auto_fit_art`
navigates to `art`.  Feature failures only produce warnings (the loop never
fails an item over them), so only the tab/stream effects are tracked. -/
def apply_optional_features (cfg : Config) (tab : Option String)
    (navs : List Bool) : Option String × List Bool :=
  let p1 : Option String × List Bool :=
    if cfg.set_symbol_override_code.isSome then
      let r1 := navigate_to_creator_tab tab navs "bottomInfo"
      let r2 := navigate_to_creator_tab r1.tab r1.navs "setSymbol"
      (r2.tab, r2.navs)
    else (tab, navs)
  let p2 : Option String × List Bool :=
    if cfg.auto_fit_set_symbol_enabled then
      let r := navigate_to_creator_tab p1.1 p1.2 "setSymbol"
      (r.tab, r.navs)
    else p1
  if cfg.auto_fit_art_enabled then
    let r := navigate_to_creator_tab p2.1 p2.2 "art"
    (r.tab, r.navs)
  else p2

/-- Characters kept by Python's regex class `\w` (ASCII fragment):
alphanumerics and the underscore. -/
def pyWordChar (c : Char) : Bool := c.isAlphanum || c = '_'

/-- Characters of Python's regex class `\s` (ASCII fragment). -/
def pySpace (c : Char) : Bool :=
  c = ' ' || c = '\t' || c = '\n' || c = '\r' || c = '\x0b' || c = '\x0c'

/-- Replacement of every maximal run of characters satisfying `p` by the
single character `r`, the effect of `re.sub(p+, r, s)`; the Bool flag tells
whether the previous character was inside a run. -/
def subRuns (p : Char → Bool) (r : Char) : Bool → List Char → List Char
  | _, [] => []
  | inRun, c :: cs =>
    if p c then
      if inRun then subRuns p r true cs else r :: subRuns p r true cs
    else c :: subRuns p r false cs

/-- Python `str.strip()` (ASCII fragment): drop whitespace from both ends. -/
def pyStrip (l : List Char) : List Char :=
  ((l.dropWhile pySpace).reverse.dropWhile pySpace).reverse

/-- Title normalization of `_generate_filename` (source lines 564-566):
`re.sub(r'[^\w\s-]', '', name.lower())`, then
`re.sub(r'\s+', '-', _.strip())`, then `re.sub(r'-+', '-', _)`. -/
def clean_name (actual_card_name : String) : String :=
  let lowered := actual_card_name.data.map Char.toLower
  let kept := lowered.filter (fun c => pyWordChar c || pySpace c || c = '-')
  let hyphened := subRuns pySpace '-' false (pyStrip kept)
  String.mk (subRuns (fun c => c = '-') '-' false hyphened)

/-- Modelled from the spec words of the amended C8 normalization, for
comparison with `clean_name`: lowercase, keep exactly the characters of the
class `[a-z0-9_ -]` (whitespace generally), collapse whitespace runs to
single hyphens, collapse repeated hyphens. -/
def clean_name_spec_amended (title : String) : String :=
  let lowered := title.data.map Char.toLower
  let kept := lowered.filter
    (fun c => c.isLower || c.isDigit || c = '_' || pySpace c || c = '-')
  let hyphened := subRuns pySpace '-' false (pyStrip kept)
  String.mk (subRuns (fun c => c = '-') '-' false hyphened)

/-- Python `str(x).lower().strip()` as applied to the set code and collector
number (source lines 569-570), on the ASCII fragment. -/
def py_lower_strip (s : String) : String :=
  String.mk (pyStrip (s.data.map Char.toLower))

/-- Model of `_generate_filename` (source lines 521-585): pull title, set
code and collector number out of the parsed data map (falling back to the
dropdown identifier, split at `'_'` when it looks pre-formatted), normalize
the title via `clean_name`, append the set/number segments unless empty or
equal to the `"noset"`/`"nonum"` sentinels, join with underscores, keep only
alphanumerics, hyphens and underscores, and append `".png"`. -/
def generate_filename (parsed_card_data_map : String → Option CardData)
    (card_name : String) : String :=
  let triple : String × String × String :=
    match parsed_card_data_map card_name with
    | some card_data =>
      (card_data.title_text.getD "unknown",
       card_data.infoSet.getD "noset",
       card_data.infoNumber.getD "nonum")
    | none =>
      if card_name.data.contains '_' then
        ((card_name.splitOn "_").headD "", "noset", "nonum")
      else (card_name, "noset", "nonum")
  let cleanName := clean_name triple.1
  let set_code_clean := py_lower_strip triple.2.1
  let collector_number_clean := py_lower_strip triple.2.2
  let parts := [cleanName]
    ++ (if ¬ set_code_clean = "" ∧ ¬ set_code_clean = "noset"
        then [set_code_clean] else [])
    ++ (if ¬ collector_number_clean = "" ∧ ¬ collector_number_clean = "nonum"
        then [collector_number_clean] else [])
  let base_filename := String.intercalate "_" parts
  let final_base := String.mk
    (base_filename.data.filter (fun c => c.isAlphanum || c = '-' || c = '_'))
  final_base ++ ".png"

/-- Tail of the loop body from the canvas capture on (source lines 725-753):
capture, update `current_canvas_hash`, fail the card on missing/empty bytes,
generate the filename, then either the server-upload branch (existence
check, upload) or the local branch (collect the bytes). -/
def itemAfterCapture (cfg : Config) (st : LoopState α) (name : String)
    (env : ItemEnv α) (tab : Option String) : LoopState α :=
  let res := capture_card_image_data_from_canvas st.currentHash env.samples
    cfg.stability_checks env.finalShot
  let st1 : LoopState α := { st with currentHash := res.2, tab := tab }
  match res.1 with
  | none => recordFail st1 tab name "(capture fail)"
  | some bs =>
    if bs.isEmpty then recordFail st1 tab name "(capture fail)"
    else
      let output_filename := generate_filename cfg.parsed_card_data_map name
      if cfg.upload_to_server then
        if ¬ cfg.overwrite_server_file = true ∧ env.existsOnServer = true then
          { st1 with fInfo := st1.fInfo ++ [FEntry.fail (name ++ "(exists on server)")] }
        else if env.uploadOk then { st1 with sCards := st1.sCards + 1 }
        else recordFail st1 tab name "(upload fail)"
      else
        { st1 with fInfo := st1.fInfo ++ [FEntry.saved output_filename bs],
                   sCards := st1.sCards + 1 }

/-- Capture-tab guard of the loop body (source lines 719-723): if the
current tab is not `art`, navigate there, failing the card when the
navigation fails. -/
def itemEnsureArtAndCapture (cfg : Config) (st : LoopState α) (name : String)
    (env : ItemEnv α) (tab : Option String) (navs : List Bool) : LoopState α :=
  if ¬ tab = some "art" then
    let r := navigate_to_creator_tab tab navs "art"
    if ¬ r.ok = true then recordFail st r.tab name "(capture tab nav fail)"
    else itemAfterCapture cfg st name env r.tab
  else itemAfterCapture cfg st name env tab

/-- One iteration of the main loop of `process_and_output_all_cards`
(source lines 698-754).  `isFirst` holds for index 0; together with a
present `current_canvas_hash` it forms
`is_first_card_and_was_successfully_primed` (line 700), which skips the
import-navigation and load stages. -/
def processItem (cfg : Config) (st : LoopState α) (isFirst : Bool)
    (name : String) (env : ItemEnv α) : LoopState α :=
  let primed := isFirst && st.currentHash.isSome
  if ¬ primed = true then
    let r := navigate_to_creator_tab st.tab env.navs "import"
    if ¬ r.ok = true then recordFail st r.tab name "(import nav fail)"
    else if ¬ env.loadOk = true then recordFail st r.tab name "(load fail)"
    else
      let f := apply_optional_features cfg r.tab r.navs
      itemEnsureArtAndCapture cfg st name env f.1 f.2
  else if ¬ st.tab = some "art" then
    let r := navigate_to_creator_tab st.tab env.navs "art"
    if ¬ r.ok = true then recordFail st r.tab name "(art tab nav fail post-prime)"
    else
      let f := apply_optional_features cfg r.tab r.navs
      itemEnsureArtAndCapture cfg st name env f.1 f.2
  else
    let f := apply_optional_features cfg st.tab env.navs
    itemEnsureArtAndCapture cfg st name env f.1 f.2

/-- Fold of the main loop over the card list; the Bool flag marks the first
iteration. -/
def processAllGo (cfg : Config) :
    LoopState α → Bool → List (String × ItemEnv α) → LoopState α
  | st, _, [] => st
  | st, isFirst, (name, env) :: rest =>
    processAllGo cfg (processItem cfg st isFirst name env) false rest

/-- Main loop of `process_and_output_all_cards` (source lines 689-754):
`failed_card_keys` is reset, the counters start at zero, and
`current_canvas_hash` starts at whatever `prime_rendering_quirks` returned
(`initHash`), with the tab wherever priming left it (`initTab`).  The
post-loop zip/extract emission (lines 756-791) consumes the resulting state
and is not itself modelled. -/
def process_and_output_all_cards (cfg : Config)
    (items : List (String × ItemEnv α)) (initHash : Option α)
    (initTab : Option String) : LoopState α :=
  processAllGo cfg ⟨0, [], [], initHash, initTab⟩ true items

/-- Outcome of `_write_failed_cards_file` (source lines 794-826): the list
of card objects written to the retry file (`none` when no file is emitted)
and whether the "couldn't match them to objects" warning at line 814
fired. -/
structure RetryOutcome (π : Type) where
  file : Option (List π)
  warned_unmatched : Bool
deriving DecidableEq

/-- Lexicographic code-point comparison of character lists, the order Python
uses to compare strings. -/
def charListLe : List Char → List Char → Bool
  | [], _ => true
  | _ :: _, [] => false
  | a :: as, b :: bs =>
    if a.toNat < b.toNat then true
    else if b.toNat < a.toNat then false
    else charListLe as bs

/-- Python string order (`sorted` on strings compares code points). -/
def pyStrLe (a b : String) : Prop := charListLe a.data b.data = true

instance : DecidableRel pyStrLe :=
  fun a b => Bool.decEq (charListLe a.data b.data) true

/-- Condition of the list comprehension at source lines 808-811:
`card_obj.get("key") in failed_keys_set` (a missing key is `None`, which is
never a member of a set of strings). -/
def keyMatches {π : Type} (keyOf : π → Option String) (keys : List String)
    (c : π) : Bool :=
  match keyOf c with
  | some k => decide (k ∈ keys)
  | none => false

/-- Model of `_write_failed_cards_file` (source lines 794-826) over an
arbitrary record type `π` with key lookup `keyOf` (Python
`card_obj.get("key")`).  No file when `failed_card_keys` is empty (line
796) or the original list was never loaded (line 800); otherwise the keys
are deduplicated and sorted, the original records filtered by key
membership, and the filtered list written — unless it is empty, in which
case only the unmatched warning fires (line 814). -/
def write_failed_cards_file {π : Type} (keyOf : π → Option String)
    (failed_card_keys : List String)
    (full_card_list_from_file : List π) : RetryOutcome π :=
  if failed_card_keys.isEmpty then ⟨none, false⟩
  else if full_card_list_from_file.isEmpty then ⟨none, false⟩
  else
    let unique_failed_keys := failed_card_keys.dedup.insertionSort pyStrLe
    let failed_card_objects :=
      full_card_list_from_file.filter (keyMatches keyOf unique_failed_keys)
    if failed_card_objects.isEmpty then ⟨none, true⟩
    else ⟨some failed_card_objects, false⟩

/-- Concrete raw card record (an element of the JSON list in the
`.cardconjurer` file): an optional `"key"` field and an opaque payload
standing for the rest of the object. -/
structure CardRec where
  key : Option String
  payload : Nat
deriving DecidableEq

/-- Concrete three-card manifest `[A, B, C]` used in concrete instances. -/
def sampleManifest : List CardRec :=
  [⟨some "A", 1⟩, ⟨some "B", 2⟩, ⟨some "C", 3⟩]

/-- Concrete parsed-data map holding the card of the naming example. -/
def izzetMap : String → Option CardData := fun n =>
  if n = "k1" then some ⟨some "Izzet Boilerworks!!", some "2X2", some "408"⟩
  else none

/-- Concrete server-upload configuration: upload on, overwrite off, optional
features off, the default three stability checks, empty parse map. -/
def uploadCfg : Config := ⟨true, false, none, false, false, 3, fun _ => none⟩

/-- Concrete loop state after successful priming: baseline hash `0`, `art`
tab active, nothing processed yet. -/
def primedState : LoopState Nat := ⟨0, [], [], some 0, some "art"⟩

/-- Concrete item environment whose canvas escapes to hash `1` and
stabilizes, whose final capture yields bytes, and whose target file already
exists on the server. -/
def existsEnv : ItemEnv Nat := ⟨[], true, [some 1, some 1], some [7], true, true⟩

/-- Concrete item environment like `existsEnv` but with the file absent from
the server and the upload failing. -/
def uploadFailEnv : ItemEnv Nat :=
  ⟨[], true, [some 1, some 1], some [7], false, false⟩

/-- Concrete item environment whose canvas keeps rendering exactly the
baseline hash `0` for the whole wait. -/
def sameHashEnv : ItemEnv Nat :=
  ⟨[], true, [some 0, some 0, some 0, some 0, some 0, some 0], some [7], false, true⟩

/-! Theorems. -/

/-- Helper: the non-null-baseline loop only ever returns a hash through the
guard `¬ h = b` of source lines 491-495, whatever state it is in. -/
theorem waitGoSome_ne_baseline (b : α) (K : Nat) :
    ∀ (samples : List (Option α)) (last : Option α) (changed : Bool)
      (stable : Nat) (fv : Bool) (x : α),
      waitGoSome b K samples last changed stable fv = some x → ¬ x = b := by
  intro samples
  induction samples with
  | nil =>
    intro last changed stable fv x heq
    simp [waitGoSome] at heq
  | cons s rest ih =>
    intro last changed stable fv x heq
    cases s with
    | none =>
      exact ih last changed stable fv x (by simpa [waitGoSome] using heq)
    | some h =>
      simp only [waitGoSome] at heq
      split_ifs at heq
      all_goals
        first
          | exact ih _ _ _ _ _ heq
          | (have hx := Option.some.inj heq; subst hx; tauto)

/-- Helper: while every sample equals the baseline the escape phase never
fires, so the loop runs to its timeout and returns `none`. -/
theorem waitGoSome_all_baseline (b : α) (K : Nat) :
    ∀ (samples : List (Option α)) (last : Option α) (stable : Nat) (fv : Bool),
      (∀ s ∈ samples, s = some b) →
      waitGoSome b K samples last false stable fv = none := by
  intro samples
  induction samples with
  | nil => intro last stable fv _; simp [waitGoSome]
  | cons s rest ih =>
    intro last stable fv hs
    have hhead : s = some b := hs s (List.mem_cons_self s rest)
    subst hhead
    have htail : ∀ s ∈ rest, s = some b := fun s hmem => hs s (List.mem_cons_of_mem _ hmem)
    simp only [waitGoSome, if_pos rfl]
    exact ih _ _ _ htail

/-- C1.  With non-null baseline `b` (here hash `0`) and K = 3, the sampled
sequence `[b,b,b,x]` does not yet succeed, but `[b,b,b,x,x]` already returns
`x` — after only the second consecutive `x` sample, never waiting for a
third, because the escape iteration (source lines 479-490) assigns
`last_hash = current_hash` and then compares the sample with itself, counting
one post-escape sample as a run of 2. -/
theorem wait_declares_success_after_second_post_escape_sample :
    wait_for_canvas_change_and_stabilization (some 0)
      [some 0, some 0, some 0, some 1] canvas_stability_checks = (none : Option Nat) ∧
    wait_for_canvas_change_and_stabilization (some 0)
      [some 0, some 0, some 0, some 1, some 1] canvas_stability_checks = some 1 := by
  constructor <;> decide

/-- C2.  Whenever `wait_for_canvas_change_and_stabilization` is called with a
non-null baseline and returns a stabilized hash, that hash differs from the
baseline: the success return at line 495 is guarded by
`current_hash != initial_data_url_hash`. -/
theorem wait_never_returns_nonnull_baseline (b : α)
    (samples : List (Option α)) (K : Nat) (x : α)
    (heq : wait_for_canvas_change_and_stabilization (some b) samples K = some x) :
    ¬ x = b :=
  waitGoSome_ne_baseline b K samples (some b) false 0 false x heq

/-- Witness for C2 at a concrete input. -/
theorem wait_never_returns_nonnull_baseline_witness :
    wait_for_canvas_change_and_stabilization (some 0) [some 1, some 1] 3 = some 1 ∧
    ¬ (1 : Nat) = 0 :=
  ⟨by decide, wait_never_returns_nonnull_baseline 0 [some 1, some 1] 3 1 (by decide)⟩

/-- C3 counterexample.  A card whose canvas keeps rendering exactly the
previous baseline hash is not captured with a warning: the stabilization wait
times out, `capture_card_image_data_from_canvas` returns no bytes, and the
main loop records the card as failed (`failedKeys = ["A"]`) with no success
counted, contradicting the claim that such a card proceeds to capture and is
counted as successfully captured. -/
theorem stabilize_to_baseline_item_fails_cex :
    (capture_card_image_data_from_canvas (some 0) sameHashEnv.samples 3 (some [7])).1 = none ∧
    (processItem uploadCfg primedState true "A" sameHashEnv).failedKeys = ["A"] ∧
    (processItem uploadCfg primedState true "A" sameHashEnv).sCards = 0 := by
  refine ⟨by decide, by decide, by decide⟩

/-- C3 as amended.  For every item whose render only ever shows the non-null
baseline fingerprint again, the convergence wait never returns that
fingerprint — it polls to its timeout and yields `none` — so the capture
step returns no image bytes (keeping the previous hash) and the processing
loop records the item as a capture failure, not as a success: the
"capturing current state anyway" branch at source lines 506-507 is dead. -/
theorem stabilize_to_baseline_times_out_and_item_fails (b : α) (K : Nat)
    (samples : List (Option α)) (hs : ∀ s ∈ samples, s = some b)
    (fin : Option (List Nat)) (cfg : Config) (st : LoopState α)
    (name : String) (env : ItemEnv α)
    (henv : env.samples = samples) (hhash : st.currentHash = some b)
    (htab : st.tab = some "art") (hK : cfg.stability_checks = K)
    (hso : cfg.set_symbol_override_code = none)
    (hfs : cfg.auto_fit_set_symbol_enabled = false)
    (hfa : cfg.auto_fit_art_enabled = false) :
    wait_for_canvas_change_and_stabilization (some b) samples K = none ∧
    capture_card_image_data_from_canvas (some b) samples K fin = (none, some b) ∧
    processItem cfg st true name env =
      { st with fInfo := st.fInfo ++ [FEntry.fail (name ++ "(capture fail)")],
                failedKeys := st.failedKeys ++ [name] } := by
  have hwait : wait_for_canvas_change_and_stabilization (some b) samples K = none :=
    waitGoSome_all_baseline b K samples (some b) 0 false hs
  have hcap : capture_card_image_data_from_canvas (some b) samples K fin = (none, some b) := by
    simp [capture_card_image_data_from_canvas, hwait]
  refine ⟨hwait, hcap, ?_⟩
  have hps : st.currentHash.isSome = true := by simp [hhash]
  simp only [processItem, hps, Bool.and_true, Bool.not_true, htab,
    apply_optional_features, hso, hfs, hfa, Option.isSome_none,
    Bool.false_eq_true, if_false, itemEnsureArtAndCapture, itemAfterCapture,
    capture_card_image_data_from_canvas, henv, hK, hhash, hwait, recordFail]
  simp [htab, hhash]

/-- Witness for C3 at a concrete input: baseline hash `0`, six samples all
equal to `0`. -/
theorem stabilize_to_baseline_times_out_and_item_fails_witness :
    wait_for_canvas_change_and_stabilization (some 0) sameHashEnv.samples 3 = (none : Option Nat) ∧
    capture_card_image_data_from_canvas (some 0) sameHashEnv.samples 3 (some [7]) = (none, some 0) ∧
    processItem uploadCfg primedState true "A" sameHashEnv =
      { primedState with
          fInfo := primedState.fInfo ++ [FEntry.fail ("A" ++ "(capture fail)")],
          failedKeys := primedState.failedKeys ++ ["A"] } :=
  stabilize_to_baseline_times_out_and_item_fails 0 3 sameHashEnv.samples
    (by decide) (some [7]) uploadCfg primedState "A" sameHashEnv
    rfl rfl rfl rfl rfl rfl rfl

/-- Helper: `recordFail` contributes exactly one failure entry. -/
theorem recordFail_accounting (st : LoopState α) (tab : Option String)
    (name sfx : String) :
    (recordFail st tab name sfx).sCards
      + ((recordFail st tab name sfx).fInfo.filter FEntry.isFail).length
      = st.sCards + (st.fInfo.filter FEntry.isFail).length + 1 := by
  simp [recordFail, List.filter_append, FEntry.isFail]
  omega

/-- Helper: from the capture stage on, each card adds exactly one success or
exactly one failure entry, never both and never neither. -/
theorem itemAfterCapture_accounting (cfg : Config) (st : LoopState α)
    (name : String) (env : ItemEnv α) (tab : Option String) :
    (itemAfterCapture cfg st name env tab).sCards
      + ((itemAfterCapture cfg st name env tab).fInfo.filter FEntry.isFail).length
      = st.sCards + (st.fInfo.filter FEntry.isFail).length + 1 := by
  simp only [itemAfterCapture]
  split
  · simp [recordFail, List.filter_append, FEntry.isFail]; omega
  · split_ifs <;>
      simp [recordFail, List.filter_append, FEntry.isFail] <;> omega

/-- Helper: the capture-tab guard preserves the one-record-per-card
accounting. -/
theorem itemEnsureArtAndCapture_accounting (cfg : Config) (st : LoopState α)
    (name : String) (env : ItemEnv α) (tab : Option String) (navs : List Bool) :
    (itemEnsureArtAndCapture cfg st name env tab navs).sCards
      + ((itemEnsureArtAndCapture cfg st name env tab navs).fInfo.filter FEntry.isFail).length
      = st.sCards + (st.fInfo.filter FEntry.isFail).length + 1 := by
  simp only [itemEnsureArtAndCapture]
  split_ifs <;>
    first
      | exact recordFail_accounting ..
      | exact itemAfterCapture_accounting ..

/-- Helper: every branch of the loop body accounts for its card exactly
once. -/
theorem processItem_accounting (cfg : Config) (st : LoopState α)
    (isFirst : Bool) (name : String) (env : ItemEnv α) :
    (processItem cfg st isFirst name env).sCards
      + ((processItem cfg st isFirst name env).fInfo.filter FEntry.isFail).length
      = st.sCards + (st.fInfo.filter FEntry.isFail).length + 1 := by
  simp only [processItem]
  split_ifs <;>
    first
      | exact recordFail_accounting ..
      | exact itemEnsureArtAndCapture_accounting ..

/-- Helper: folding the loop over any item list adds exactly one record per
item. -/
theorem processAllGo_accounting (cfg : Config) :
    ∀ (items : List (String × ItemEnv α)) (st : LoopState α) (isFirst : Bool),
      (processAllGo cfg st isFirst items).sCards
        + ((processAllGo cfg st isFirst items).fInfo.filter FEntry.isFail).length
        = st.sCards + (st.fInfo.filter FEntry.isFail).length + items.length := by
  intro items
  induction items with
  | nil => intro st isFirst; simp [processAllGo]
  | cons item rest ih =>
    intro st isFirst
    obtain ⟨name, env⟩ := item
    simp only [processAllGo, List.length_cons]
    rw [ih (processItem cfg st isFirst name env) false,
      processItem_accounting]
    omega

/-- C4.  For every configuration, priming outcome and pattern of per-item
external outcomes (navigation, load, capture, existence check and upload
failures included), the main loop of `process_and_output_all_cards` accounts
for every card of the list exactly once — successes plus failure records
equal the number of cards — so no item's failure aborts the batch or skips a
later item. -/
theorem process_loop_accounts_for_every_item (cfg : Config)
    (items : List (String × ItemEnv α)) (initHash : Option α)
    (initTab : Option String) :
    (process_and_output_all_cards cfg items initHash initTab).sCards
      + ((process_and_output_all_cards cfg items initHash initTab).fInfo.filter
          FEntry.isFail).length
      = items.length := by
  unfold process_and_output_all_cards
  rw [processAllGo_accounting]
  simp

/-- C9.  The view navigator returns success without touching the click
stream when the tracked view already equals the target; otherwise it
consumes one click outcome: on success it records the target as the current
view and sleeps the settle delay before returning `true`; on failure (or
with no button available) it resets the current view to `none` — so a
repeated call with the same target succeeds only through a fresh click
outcome, never through the stale no-op branch. -/
theorem navigate_to_creator_tab_contract (tab : Option String)
    (navs : List Bool) (target : String) :
    (tab = some target →
      navigate_to_creator_tab tab navs target = ⟨true, tab, navs, false⟩) ∧
    (¬ tab = some target → navs = [] →
      navigate_to_creator_tab tab navs target = ⟨false, none, [], false⟩) ∧
    (∀ rest, ¬ tab = some target → navs = true :: rest →
      navigate_to_creator_tab tab navs target = ⟨true, some target, rest, true⟩) ∧
    (∀ rest, ¬ tab = some target → navs = false :: rest →
      navigate_to_creator_tab tab navs target = ⟨false, none, rest, false⟩) ∧
    (∀ navs' : List Bool,
      ((navigate_to_creator_tab none navs' target).ok = true ↔
        navs'.head? = some true)) := by
  refine ⟨?_, ?_, ?_, ?_, ?_⟩
  · intro h; simp [navigate_to_creator_tab, h]
  · intro h hnil; subst hnil; simp [navigate_to_creator_tab, h]
  · intro rest h hcons; subst hcons; simp [navigate_to_creator_tab, h]
  · intro rest h hcons; subst hcons; simp [navigate_to_creator_tab, h]
  · intro navs'
    cases navs' with
    | nil => simp [navigate_to_creator_tab]
    | cons b rest => cases b <;> simp [navigate_to_creator_tab]

/-- Witness for C9 at a concrete input: already on the target view, the
switch is not attempted and the stream is left untouched. -/
theorem navigate_to_creator_tab_contract_witness :
    navigate_to_creator_tab (some "art") [false] "art" =
      ⟨true, some "art", [false], false⟩ :=
  (navigate_to_creator_tab_contract (some "art") [false] "art").1 rfl

/-- C7.  On the example card — title `"Izzet Boilerworks!!"`, set `"2X2"`,
collector number `"408"` — `_generate_filename` produces exactly
`"izzet-boilerworks_2x2_408.png"`; the function is a pure function of the
parsed-data map and the card name, so repeated calls agree by construction. -/
theorem generate_filename_izzet_example :
    generate_filename izzetMap "k1" = "izzet-boilerworks_2x2_408.png" := by
  decide

/-- Helper: deduplicating and sorting the failed keys does not change which
records match (membership is invariant under `set(...)` and `sorted(...)`). -/
theorem keyMatches_dedup_sort {π : Type} (keyOf : π → Option String)
    (fk : List String) (c : π) :
    keyMatches keyOf (fk.dedup.insertionSort pyStrLe) c
      = keyMatches keyOf fk c := by
  unfold keyMatches
  cases keyOf c with
  | none => rfl
  | some k =>
    simp [(List.perm_insertionSort pyStrLe fk.dedup).mem_iff, List.mem_dedup]

/-- Helper: what it means for a record to match the failed-key set. -/
theorem keyMatches_eq_true_iff {π : Type} (keyOf : π → Option String)
    (keys : List String) (c : π) :
    keyMatches keyOf keys c = true ↔
      ∃ k, keyOf c = some k ∧ k ∈ keys := by
  unfold keyMatches
  cases h : keyOf c with
  | none => simp
  | some k => simp

/-- Helper: whenever a retry file is written, its contents are exactly the
original records whose key is in the failed-key list. -/
theorem write_failed_file_eq {π : Type} (keyOf : π → Option String)
    (fk : List String) (orig objs : List π)
    (heq : (write_failed_cards_file keyOf fk orig).file = some objs) :
    objs = orig.filter (keyMatches keyOf fk) := by
  unfold write_failed_cards_file at heq
  by_cases h1 : fk.isEmpty = true
  · rw [if_pos h1] at heq; simp at heq
  rw [if_neg h1] at heq
  by_cases h2 : orig.isEmpty = true
  · rw [if_pos h2] at heq; simp at heq
  rw [if_neg h2] at heq
  by_cases h3 :
      (orig.filter (keyMatches keyOf (fk.dedup.insertionSort pyStrLe))).isEmpty = true
  · rw [if_pos h3] at heq; simp at heq
  rw [if_neg h3] at heq
  have hobjs := Option.some.inj heq
  rw [← hobjs]
  exact List.filter_congr fun c _ => keyMatches_dedup_sort keyOf fk c

/-- Helper: when some matching record exists, a file is written and that
record appears in it. -/
theorem write_failed_file_of_mem {π : Type} (keyOf : π → Option String)
    (fk : List String) (orig : List π) (rec : π)
    (hmem : rec ∈ orig) (hmatch : keyMatches keyOf fk rec = true) :
    ∃ objs, (write_failed_cards_file keyOf fk orig).file = some objs ∧
      rec ∈ objs := by
  have hmatch' : keyMatches keyOf
      (fk.dedup.insertionSort pyStrLe) rec = true := by
    rw [keyMatches_dedup_sort]; exact hmatch
  have hfk : ¬ fk.isEmpty = true := by
    obtain ⟨k, _, hk⟩ := (keyMatches_eq_true_iff keyOf fk rec).mp hmatch
    intro habs
    rw [List.isEmpty_iff.mp habs] at hk
    exact List.not_mem_nil k hk
  have horig : ¬ orig.isEmpty = true := by
    intro habs
    rw [List.isEmpty_iff.mp habs] at hmem
    exact List.not_mem_nil rec hmem
  have hrecfilter : rec ∈ orig.filter
      (keyMatches keyOf (fk.dedup.insertionSort pyStrLe)) :=
    List.mem_filter.mpr ⟨hmem, hmatch'⟩
  have hne : ¬ (orig.filter
      (keyMatches keyOf (fk.dedup.insertionSort pyStrLe))).isEmpty = true := by
    intro habs
    rw [List.isEmpty_iff.mp habs] at hrecfilter
    exact List.not_mem_nil rec hrecfilter
  refine ⟨orig.filter (keyMatches keyOf (fk.dedup.insertionSort pyStrLe)), ?_, hrecfilter⟩
  unfold write_failed_cards_file
  rw [if_neg hfk, if_neg horig, if_neg hne]

/-- C5.  The retry-file writer emits no file for an empty failed-key list,
and whenever it does write a file, the file holds exactly the records of the
original list whose key belongs to the failed-key list — the very same
records, in their original order (a filter of the original list), with
deduplication and sorting of the keys not affecting the selection. -/
theorem retry_file_is_key_filter_of_original {π : Type}
    (keyOf : π → Option String) :
    (∀ orig : List π, (write_failed_cards_file keyOf [] orig).file = none) ∧
    (∀ (fk : List String) (orig objs : List π),
      (write_failed_cards_file keyOf fk orig).file = some objs →
      objs = orig.filter (keyMatches keyOf fk)) := by
  constructor
  · intro orig; simp [write_failed_cards_file]
  · intro fk orig objs heq
    exact write_failed_file_eq keyOf fk orig objs heq

/-- Witness for C5: `buildRetryManifest(M, {"B"})` keeps exactly the original
`B` record, and an empty failed set produces no file. -/
theorem retry_file_is_key_filter_of_original_witness :
    (write_failed_cards_file CardRec.key [] sampleManifest).file = none ∧
    ([⟨some "B", 2⟩] : List CardRec)
      = sampleManifest.filter (keyMatches CardRec.key ["B"]) :=
  ⟨(retry_file_is_key_filter_of_original CardRec.key).1 sampleManifest,
   (retry_file_is_key_filter_of_original CardRec.key).2 ["B"] sampleManifest
     [⟨some "B", 2⟩] (by decide)⟩

/-- C6 counterexample.  With failed keys `["B","Z"]` against the manifest
`[A,B,C]`, the key `"Z"` matches no record, yet the writer emits the retry
file for `B` with the unmatched warning left unfired (`warned_unmatched =
false`): the unmatched key is silently dropped, contrary to the claim that a
distinct warning is emitted when other keys do match. -/
theorem unmatched_key_silently_dropped_cex :
    write_failed_cards_file CardRec.key ["B", "Z"] sampleManifest =
      ⟨some [⟨some "B", 2⟩], false⟩ := by
  decide

/-- C6 as amended.  The "couldn't match" warning of
`_write_failed_cards_file` fires exactly when the failed-key list and the
original list are both non-empty and no failed key matches any record at
all; in that case no file is written.  When at least one key matches, the
remaining unmatched keys produce no warning (they are silently dropped). -/
theorem unmatched_warning_iff_no_key_matches {π : Type}
    (keyOf : π → Option String) (fk : List String) (orig : List π) :
    ((write_failed_cards_file keyOf fk orig).warned_unmatched = true ↔
      (¬ fk = [] ∧ ¬ orig = [] ∧
        ∀ c ∈ orig, ∀ k, keyOf c = some k → ¬ k ∈ fk)) ∧
    ((write_failed_cards_file keyOf fk orig).warned_unmatched = true →
      (write_failed_cards_file keyOf fk orig).file = none) := by
  by_cases h1 : fk.isEmpty = true
  · obtain rfl : fk = [] := List.isEmpty_iff.mp h1
    constructor
    · simp [write_failed_cards_file]
    · intro habs; simp [write_failed_cards_file] at habs
  by_cases h2 : orig.isEmpty = true
  · obtain rfl : orig = [] := List.isEmpty_iff.mp h2
    have hw : write_failed_cards_file keyOf fk ([] : List π) = ⟨none, false⟩ := by
      unfold write_failed_cards_file
      rw [if_neg h1]
      rfl
    rw [hw]
    constructor
    · simp
    · intro habs; simp at habs
  by_cases h3 :
      (orig.filter (keyMatches keyOf (fk.dedup.insertionSort pyStrLe))).isEmpty = true
  · have hw : write_failed_cards_file keyOf fk orig = ⟨none, true⟩ := by
      unfold write_failed_cards_file
      rw [if_neg h1, if_neg h2, if_pos h3]
    rw [hw]
    have hnil := List.filter_eq_nil_iff.mp (List.isEmpty_iff.mp h3)
    simp only [List.isEmpty_iff] at h1 h2
    refine ⟨⟨fun _ => ⟨h1, h2, ?_⟩, fun _ => rfl⟩, fun _ => rfl⟩
    intro c hc k hk hkfk
    apply hnil c hc
    rw [keyMatches_dedup_sort]
    exact (keyMatches_eq_true_iff keyOf fk c).mpr ⟨k, hk, hkfk⟩
  · have hw : write_failed_cards_file keyOf fk orig =
        ⟨some (orig.filter (keyMatches keyOf (fk.dedup.insertionSort pyStrLe))),
         false⟩ := by
      unfold write_failed_cards_file
      rw [if_neg h1, if_neg h2, if_neg h3]
    rw [hw]
    have hex : ∃ c ∈ orig,
        keyMatches keyOf (fk.dedup.insertionSort pyStrLe) c = true := by
      by_contra habs
      push_neg at habs
      exact h3 (List.isEmpty_iff.mpr (List.filter_eq_nil_iff.mpr habs))
    obtain ⟨c, hc, hmatch⟩ := hex
    rw [keyMatches_dedup_sort] at hmatch
    obtain ⟨k, hk, hkfk⟩ := (keyMatches_eq_true_iff keyOf fk c).mp hmatch
    constructor
    · simp only [Bool.false_eq_true, false_iff]
      intro habs
      exact habs.2.2 c hc k hk hkfk
    · intro habs; simp at habs

/-- Witness for C6: with the single unmatched key `"Z"` the warning fires
and no file is written. -/
theorem unmatched_warning_iff_no_key_matches_witness :
    (write_failed_cards_file CardRec.key ["Z"] sampleManifest).file = none :=
  (unmatched_warning_iff_no_key_matches CardRec.key ["Z"] sampleManifest).2
    (by decide)

/-- Helper: on ASCII characters, keeping the class `[\w\s-]` after
lowercasing is the same as keeping lowercase letters, digits, underscore,
whitespace and hyphen — stated over the 128 ASCII code points. -/
theorem lower_pred_eq_of_ascii_nat :
    ∀ n : Nat, n < 128 →
      (pyWordChar (Char.ofNat n).toLower || pySpace (Char.ofNat n).toLower
        || decide ((Char.ofNat n).toLower = '-'))
      = ((Char.ofNat n).toLower.isLower || (Char.ofNat n).toLower.isDigit
        || decide ((Char.ofNat n).toLower = '_')
        || pySpace (Char.ofNat n).toLower
        || decide ((Char.ofNat n).toLower = '-')) := by
  decide

/-- Helper: the previous fact for an arbitrary ASCII character. -/
theorem lower_pred_eq_of_ascii (c : Char) (hc : c.toNat < 128) :
    (pyWordChar c.toLower || pySpace c.toLower || decide (c.toLower = '-'))
      = (c.toLower.isLower || c.toLower.isDigit || decide (c.toLower = '_')
        || pySpace c.toLower || decide (c.toLower = '-')) := by
  have h := lower_pred_eq_of_ascii_nat c.toNat hc
  rwa [Char.ofNat_toNat] at h

/-- Helper: `dropWhile` keeps every element the predicate rejects. -/
theorem mem_dropWhile_of_neg {β : Type} (p : β → Bool) (a : β)
    (ha : p a = false) : ∀ l : List β, a ∈ l → a ∈ l.dropWhile p := by
  intro l
  induction l with
  | nil => intro h; exact absurd h (List.not_mem_nil a)
  | cons c cs ih =>
    intro h
    rw [List.dropWhile_cons]
    by_cases hc : p c = true
    · rw [if_pos hc]
      rcases List.mem_cons.mp h with rfl | hmem
      · rw [ha] at hc; exact absurd hc (by simp)
      · exact ih hmem
    · rw [if_neg hc]; exact h

/-- Helper: stripping whitespace from the ends keeps every non-whitespace
character. -/
theorem mem_pyStrip_of_not_space (a : Char) (ha : pySpace a = false)
    (l : List Char) (h : a ∈ l) : a ∈ pyStrip l := by
  unfold pyStrip
  rw [List.mem_reverse]
  apply mem_dropWhile_of_neg pySpace a ha
  rw [List.mem_reverse]
  exact mem_dropWhile_of_neg pySpace a ha l h

/-- Helper: collapsing runs of `p`-characters keeps every character `p`
rejects. -/
theorem mem_subRuns_of_neg (p : Char → Bool) (r : Char) (a : Char)
    (ha : p a = false) :
    ∀ (l : List Char) (b : Bool), a ∈ l → a ∈ subRuns p r b l := by
  intro l
  induction l with
  | nil => intro b h; exact absurd h (List.not_mem_nil a)
  | cons c cs ih =>
    intro b h
    rcases List.mem_cons.mp h with rfl | hmem
    · simp only [subRuns, ha, Bool.false_eq_true, if_false]
      exact List.mem_cons_self a _
    · simp only [subRuns]
      by_cases hc : p c = true
      · rw [if_pos hc]
        cases b with
        | true => simpa using ih true hmem
        | false => simpa using List.mem_cons_of_mem r (ih true hmem)
      · rw [if_neg hc]
        exact List.mem_cons_of_mem c (ih false hmem)

/-- C8 counterexample.  The title `"a_b"` normalizes to `"a_b"` itself: the
underscore — a character outside the claimed class `[a-z0-9 -]` — survives
into the name segment, because Python's `\w` (and the final `isalnum`-based
filter at source line 583) both keep underscores. -/
theorem clean_name_keeps_underscore_cex :
    clean_name "a_b" = "a_b" ∧ '_' ∈ (clean_name "a_b").data := by
  constructor <;> decide

/-- C8 as amended.  On ASCII titles the normalization of
`_generate_filename` lowercases and keeps exactly the characters of the
class `[a-z0-9_ -]` — underscores are word characters and survive — then
strips the ends, collapses whitespace runs to single hyphens and collapses
repeated hyphens; in particular any underscore of the title is still present
in the normalized name segment. -/
theorem clean_name_amended_normalization (s : String)
    (hascii : s.data.all (fun c => decide (c.toNat < 128)) = true) :
    clean_name s = clean_name_spec_amended s ∧
    ('_' ∈ s.data → '_' ∈ (clean_name s).data) := by
  have hfilter : (s.data.map Char.toLower).filter
        (fun c => pyWordChar c || pySpace c || decide (c = '-'))
      = (s.data.map Char.toLower).filter
        (fun c => c.isLower || c.isDigit || decide (c = '_') || pySpace c
          || decide (c = '-')) := by
    apply List.filter_congr
    intro x hx
    obtain ⟨c, hc, rfl⟩ := List.mem_map.mp hx
    exact lower_pred_eq_of_ascii c
      (by simpa using List.all_eq_true.mp hascii c hc)
  constructor
  · unfold clean_name clean_name_spec_amended
    simp only [hfilter]
  · intro hu
    unfold clean_name
    apply mem_subRuns_of_neg _ _ _ (by decide)
    apply mem_subRuns_of_neg _ _ _ (by decide)
    apply mem_pyStrip_of_not_space _ (by decide)
    apply List.mem_filter.mpr
    refine ⟨List.mem_map.mpr ⟨'_', hu, by decide⟩, by decide⟩

/-- Witness for C8 at the concrete ASCII title `"A_ b"`. -/
theorem clean_name_amended_normalization_witness :
    clean_name "A_ b" = clean_name_spec_amended "A_ b" ∧
    '_' ∈ (clean_name "A_ b").data :=
  ⟨(clean_name_amended_normalization "A_ b" (by decide)).1,
   (clean_name_amended_normalization "A_ b" (by decide)).2 (by decide)⟩

/-- C10.  In server-upload mode with overwriting disabled, a card whose
target file already exists is skipped a third way: the loop appends only the
`"(exists on server)"` note to `f_cards_info` and `continue`s — the success
counter does not move and the key is not appended to `failed_card_keys`, so
the card can appear in no retry file either; by contrast, an upload failure
leaves the counter alone but does append the key, which puts the card's
original record into the written retry file. -/
theorem exists_on_server_third_way_skip {π : Type} (keyOf : π → Option String)
    (cfg : Config) (st : LoopState α) (name : String) (env : ItemEnv α)
    (h1 : α) (bs : List Nat)
    (hup : cfg.upload_to_server = true)
    (hov : cfg.overwrite_server_file = false)
    (hso : cfg.set_symbol_override_code = none)
    (hfs : cfg.auto_fit_set_symbol_enabled = false)
    (hfa : cfg.auto_fit_art_enabled = false)
    (htab : st.tab = some "art")
    (hprime : st.currentHash.isSome = true)
    (hwait : wait_for_canvas_change_and_stabilization st.currentHash
      env.samples cfg.stability_checks = some h1)
    (hshot : env.finalShot = some bs) (hbs : bs.isEmpty = false)
    (hex : env.existsOnServer = true)
    (hkey : ¬ name ∈ st.failedKeys) :
    processItem cfg st true name env =
      { st with fInfo := st.fInfo ++ [FEntry.fail (name ++ "(exists on server)")],
                currentHash := some h1 } ∧
    (processItem cfg st true name env).failedKeys = st.failedKeys ∧
    (processItem cfg st true name env).sCards = st.sCards ∧
    (∀ (orig objs : List π),
      (write_failed_cards_file keyOf
        (processItem cfg st true name env).failedKeys orig).file = some objs →
      ∀ rec ∈ objs, ¬ keyOf rec = some name) ∧
    processItem cfg st true name
        { env with existsOnServer := false, uploadOk := false } =
      { st with fInfo := st.fInfo ++ [FEntry.fail (name ++ "(upload fail)")],
                failedKeys := st.failedKeys ++ [name],
                currentHash := some h1 } ∧
    (∀ (orig : List π) (rec : π), rec ∈ orig → keyOf rec = some name →
      ∃ objs,
        (write_failed_cards_file keyOf
          (processItem cfg st true name
            { env with existsOnServer := false, uploadOk := false }).failedKeys
          orig).file = some objs ∧ rec ∈ objs) := by
  have hmain : processItem cfg st true name env =
      { st with fInfo := st.fInfo ++ [FEntry.fail (name ++ "(exists on server)")],
                currentHash := some h1 } := by
    simp only [processItem, hprime, Bool.and_true, Bool.not_true, htab,
      apply_optional_features, hso, hfs, hfa, Option.isSome_none,
      Bool.false_eq_true, if_false, itemEnsureArtAndCapture, itemAfterCapture,
      capture_card_image_data_from_canvas, hwait, hshot, hup, hov, hex, hbs]
    simp [htab]
  have hfail : processItem cfg st true name
        { env with existsOnServer := false, uploadOk := false } =
      { st with fInfo := st.fInfo ++ [FEntry.fail (name ++ "(upload fail)")],
                failedKeys := st.failedKeys ++ [name],
                currentHash := some h1 } := by
    simp only [processItem, hprime, Bool.and_true, Bool.not_true, htab,
      apply_optional_features, hso, hfs, hfa, Option.isSome_none,
      Bool.false_eq_true, if_false, itemEnsureArtAndCapture, itemAfterCapture,
      capture_card_image_data_from_canvas, hwait, hshot, hup, hov, hbs,
      recordFail]
    simp [htab]
  have hkeys : (processItem cfg st true name env).failedKeys = st.failedKeys := by
    rw [hmain]
  refine ⟨hmain, hkeys, by rw [hmain], ?_, hfail, ?_⟩
  · intro orig objs heq rec hrec hreckey
    rw [hkeys] at heq
    have hobjs := write_failed_file_eq keyOf st.failedKeys orig objs heq
    rw [hobjs] at hrec
    have hm := (List.mem_filter.mp hrec).2
    obtain ⟨k, hk, hkmem⟩ :=
      (keyMatches_eq_true_iff keyOf st.failedKeys rec).mp hm
    rw [hreckey] at hk
    apply hkey
    rw [Option.some.inj hk]
    exact hkmem
  · intro orig rec hmem hkeyrec
    have hkeys' : (processItem cfg st true name
        { env with existsOnServer := false, uploadOk := false }).failedKeys
        = st.failedKeys ++ [name] := by rw [hfail]
    rw [hkeys']
    apply write_failed_file_of_mem keyOf _ orig rec hmem
    exact (keyMatches_eq_true_iff keyOf _ rec).mpr ⟨name, hkeyrec, by simp⟩

/-- Witness for C10 at a concrete input: one primed card `"A"`, canvas
stabilizing to hash `1`, file already present on the server (and, for the
contrast, an upload failure). -/
theorem exists_on_server_third_way_skip_witness :
    processItem uploadCfg primedState true "A" existsEnv =
      { primedState with
          fInfo := primedState.fInfo ++ [FEntry.fail ("A" ++ "(exists on server)")],
          currentHash := some 1 } ∧
    (processItem uploadCfg primedState true "A" existsEnv).failedKeys
      = primedState.failedKeys ∧
    (processItem uploadCfg primedState true "A" existsEnv).sCards
      = primedState.sCards ∧
    processItem uploadCfg primedState true "A"
        { existsEnv with existsOnServer := false, uploadOk := false } =
      { primedState with
          fInfo := primedState.fInfo ++ [FEntry.fail ("A" ++ "(upload fail)")],
          failedKeys := primedState.failedKeys ++ ["A"],
          currentHash := some 1 } := by
  obtain ⟨m1, m2, m3, _, m5, _⟩ :=
    exists_on_server_third_way_skip (π := CardRec) CardRec.key uploadCfg
      primedState "A" existsEnv 1 [7] rfl rfl rfl rfl rfl rfl rfl
      (by decide) rfl rfl rfl (by decide)
  exact ⟨m1, m2, m3, m5⟩

end CCDownloader
